import Mathlib

/-!
# Flight-tracking backend: shallow embedding and verification

This file embeds the core of the flight-tracking backend (`backend/app.py`):
the geographic helper functions (haversine distance, route progress, waypoint
interpolation), the ingestion/validation handler `update_flight`, the archival
handler `complete_flight`, and the bulk sweep `auto_complete_landed_flights`,
together with the in-memory document store they operate on (collections
`flights`, `tracking`, `logs`).

Modelling conventions:
* Python floats are idealised as exact real numbers (`ℝ`) for the geographic
  computations; the numeric payload of reports and documents is carried as
  exact rationals (`ℚ`) so that the store operations stay executable.
* Python's `round(x, 2)` is modelled as round-half-to-even at two decimals.
* JSON values appearing in a report are modelled by `PyVal`; string-to-float
  coercion (`float("...")`) and ISO-timestamp parsing are abstracted as
  function parameters, since their internals are irrelevant to the handlers.
* Flight identifiers are modelled as strings (the JSON payloads always carry
  string identifiers; the handlers never inspect them beyond equality).
* The MongoDB collections are modelled as lists in insertion order;
  `update_one` with `$set`/upsert, `find_one`, `delete_one`, `delete_many`
  and filtered `find` are given their documented first-match semantics.
-/

namespace FlightSystem

/-- A JSON scalar value as it appears in an inbound report. -/
inductive PyVal where
  | pstr (s : String)
  | pnum (q : ℚ)
  | pbool (b : Bool)
  | pnull
deriving DecidableEq

open PyVal

/-- One entry of the static airport table: coordinates plus display name. -/
structure Airport where
  lat : ℝ
  lon : ℝ
  name : String

/-- The static airport table `AIRPORTS` from `app.py`. -/
noncomputable def AIRPORTS : List (String × Airport) :=
  [ ("JFK", ⟨40.6413, -73.7781, "John F. Kennedy International"⟩),
    ("LAX", ⟨33.9416, -118.4085, "Los Angeles International"⟩),
    ("ORD", ⟨41.9786, -87.9048, "Chicago O'Hare International"⟩),
    ("DFW", ⟨32.8968, -97.0380, "Dallas/Fort Worth International"⟩),
    ("ATL", ⟨33.6407, -84.4277, "Hartsfield-Jackson Atlanta International"⟩),
    ("DEN", ⟨39.8561, -104.6737, "Denver International"⟩),
    ("SFO", ⟨37.6213, -122.3790, "San Francisco International"⟩),
    ("SEA", ⟨47.4502, -122.3088, "Seattle-Tacoma International"⟩),
    ("BOS", ⟨42.3656, -71.0096, "Logan International"⟩),
    ("MIA", ⟨25.7959, -80.2871, "Miami International"⟩),
    ("LHR", ⟨51.4700, -0.4543, "London Heathrow"⟩),
    ("CDG", ⟨49.0097, 2.5479, "Charles de Gaulle"⟩),
    ("NRT", ⟨35.7720, 140.3928, "Narita International"⟩),
    ("DXB", ⟨25.2532, 55.3657, "Dubai International"⟩) ]

/-- Python's `math.radians`. -/
noncomputable def radians (x : ℝ) : ℝ := x * Real.pi / 180

/-- Python's `math.atan2` (C library semantics on the four quadrants and axes). -/
noncomputable def atan2 (y x : ℝ) : ℝ :=
  if 0 < x then Real.arctan (y / x)
  else if x < 0 ∧ 0 ≤ y then Real.arctan (y / x) + Real.pi
  else if x < 0 then Real.arctan (y / x) - Real.pi
  else if 0 < y then Real.pi / 2
  else if y < 0 then -(Real.pi / 2)
  else 0

/-- The haversine great-circle distance `calculate_distance` from `app.py`
(kilometres, Earth radius 6371 km). -/
noncomputable def calculate_distance (lat1 lon1 lat2 lon2 : ℝ) : ℝ :=
  let dlat := radians (lat2 - lat1)
  let dlon := radians (lon2 - lon1)
  let a := Real.sin (dlat / 2) * Real.sin (dlat / 2) +
    Real.cos (radians lat1) * Real.cos (radians lat2) *
    Real.sin (dlon / 2) * Real.sin (dlon / 2)
  let c := 2 * atan2 (Real.sqrt a) (Real.sqrt (1 - a))
  6371 * c

/-- Round-half-to-even of a real number to an integer (Python's `round`). -/
noncomputable def roundHalfEven (y : ℝ) : ℤ :=
  if y - ⌊y⌋ < 1 / 2 then ⌊y⌋
  else if 1 / 2 < y - ⌊y⌋ then ⌊y⌋ + 1
  else if Even ⌊y⌋ then ⌊y⌋ else ⌊y⌋ + 1

/-- Python's `round(x, 2)` on a real number. -/
noncomputable def pyRound2 (x : ℝ) : ℝ := (roundHalfEven (x * 100) : ℝ) / 100

/-- Round-half-to-even of a rational to an integer (Python's `round`). -/
def roundHalfEvenQ (y : ℚ) : ℤ :=
  if y - ⌊y⌋ < 1 / 2 then ⌊y⌋
  else if 1 / 2 < y - ⌊y⌋ then ⌊y⌋ + 1
  else if Even ⌊y⌋ then ⌊y⌋ else ⌊y⌋ + 1

/-- Python's `round(x, 2)` on a rational number. -/
def pyRound2Q (x : ℚ) : ℚ := (roundHalfEvenQ (x * 100) : ℚ) / 100

/-- The route-progress computation `calculate_route_progress` from `app.py`.
Absent or unknown airport codes yield 0 (the empty string, Python-falsy, is
not a key of the table, so the `not source` guard coincides with the failed
lookup); a degenerate route of total distance zero yields 100; otherwise the
progress percentage is clamped to [0, 100] and rounded to two decimals. -/
noncomputable def calculate_route_progress (current_lat current_lon : ℝ)
    (source destination : Option String) : ℝ :=
  match source, destination with
  | some s, some d =>
    match AIRPORTS.lookup s, AIRPORTS.lookup d with
    | some sc, some dc =>
      let total_distance := calculate_distance sc.lat sc.lon dc.lat dc.lon
      let current_to_dest := calculate_distance current_lat current_lon dc.lat dc.lon
      if total_distance = 0 then 100
      else pyRound2 (max 0 (min 100 ((total_distance - current_to_dest) / total_distance * 100)))
    | _, _ => 0
  | _, _ => 0

/-- One interpolated waypoint produced by `get_route_waypoints`. -/
structure Waypoint where
  lat : ℝ
  lon : ℝ
  progress : ℝ

/-- The waypoint interpolation `get_route_waypoints` from `app.py`:
`num_points + 1` points linearly interpolated in latitude/longitude space. -/
noncomputable def get_route_waypoints (source destination : Option String)
    (num_points : ℕ) : List Waypoint :=
  match source, destination with
  | some s, some d =>
    match AIRPORTS.lookup s, AIRPORTS.lookup d with
    | some sc, some dc =>
      (List.range (num_points + 1)).map fun (i : ℕ) =>
        let progress : ℝ := (i : ℝ) / (num_points : ℝ)
        ⟨sc.lat + (dc.lat - sc.lat) * progress,
         sc.lon + (dc.lon - sc.lon) * progress,
         progress * 100⟩
    | _, _ => []
  | _, _ => []

/-- The raw JSON body of a `POST /api/flight/update` request: each field is
present or absent, required fields carry arbitrary JSON scalars. -/
structure RawReport where
  flight_id : Option String := none
  latitude : Option PyVal := none
  longitude : Option PyVal := none
  altitude : Option PyVal := none
  speed : Option PyVal := none
  heading : Option PyVal := none
  status : Option PyVal := none
  timestamp : Option PyVal := none
  aircraft_type : Option PyVal := none
  airline : Option PyVal := none
  departure : Option PyVal := none
  arrival : Option PyVal := none
  route : Option PyVal := none
  destination : Option String := none
  source : Option String := none

/-- Python's `float(...)` coercion on a JSON scalar: numbers pass through,
booleans coerce to 0/1, strings go through the parser `conv`, `None` raises
(`TypeError`, caught by the handler). -/
def pyFloat (conv : String → Option ℚ) : PyVal → Option ℚ
  | pnum q => some q
  | pbool b => some (if b then 1 else 0)
  | pstr s => conv s
  | pnull => none

/-- A report that passed validation: coerced numeric fields, parsed
timestamp, and the untouched pass-through fields. -/
structure NormReport where
  flight_id : String
  latitude : ℚ
  longitude : ℚ
  altitude : ℚ
  speed : ℚ
  heading : ℚ
  status : PyVal
  timestamp : ℚ
  aircraft_type : Option PyVal
  airline : Option PyVal
  departure : Option PyVal
  arrival : Option PyVal
  route : Option PyVal
  destination : Option String
  source : Option String

/-- Outcome of the `update_flight` handler: HTTP 200, an HTTP 400 rejection
carrying the error message, or an unhandled exception (HTTP 500: a non-string
timestamp reaches `.replace` and raises `AttributeError`). -/
inductive UpdRes where
  | ok
  | badRequest (msg : String)
  | crash
deriving DecidableEq

def missingMsg : String := "Missing one or more required fields"
def typeMsg : String := "Invalid data types for numeric fields"
def latMsg : String := "Latitude must be between -90 and 90"
def lonMsg : String := "Longitude must be between -180 and 180"
def altMsg : String := "Altitude must be positive"
def spdMsg : String := "Speed must be positive"
def hdgMsg : String := "Heading must be between 0 and 360"
def tsMsg : String := "Invalid timestamp format. Use ISO format"

/-- The validation phase of `update_flight` (`app.py` lines 92–124):
required-field presence, numeric coercion, range checks in source order,
then timestamp parsing. `conv` abstracts `float` on strings and `parse`
abstracts `datetime.fromisoformat` (after the `Z` replacement). -/
def validateReport (conv parse : String → Option ℚ) (data : RawReport) :
    Except UpdRes NormReport :=
  match data.flight_id, data.latitude, data.longitude, data.altitude,
      data.speed, data.heading, data.status, data.timestamp with
  | some fid, some vlat, some vlon, some valt, some vspd, some vhdg, some vst, some vts =>
    match pyFloat conv vlat, pyFloat conv vlon, pyFloat conv valt,
        pyFloat conv vspd, pyFloat conv vhdg with
    | some lat, some lon, some alt, some spd, some hdg =>
      if ¬(-90 ≤ lat ∧ lat ≤ 90) then .error (.badRequest latMsg)
      else if ¬(-180 ≤ lon ∧ lon ≤ 180) then .error (.badRequest lonMsg)
      else if alt < 0 then .error (.badRequest altMsg)
      else if spd < 0 then .error (.badRequest spdMsg)
      else if ¬(0 ≤ hdg ∧ hdg ≤ 360) then .error (.badRequest hdgMsg)
      else
        match vts with
        | pstr s =>
          match parse s with
          | some t =>
            .ok ⟨fid, lat, lon, alt, spd, hdg, vst, t, data.aircraft_type,
              data.airline, data.departure, data.arrival, data.route,
              data.destination, data.source⟩
          | none => .error (.badRequest tsMsg)
        | _ => .error .crash
    | _, _, _, _, _ => .error (.badRequest typeMsg)
  | _, _, _, _, _, _, _, _ => .error (.badRequest missingMsg)

/-- One document of the `tracking` collection: the (converted) report as
inserted by `update_flight`, with the server-assigned `received_at`. -/
structure TrackDoc where
  flight_id : String
  latitude : ℚ
  longitude : ℚ
  altitude : ℚ
  speed : ℚ
  heading : ℚ
  status : PyVal
  timestamp : ℚ
  received_at : ℚ
  aircraft_type : Option PyVal := none
  airline : Option PyVal := none
  departure : Option PyVal := none
  arrival : Option PyVal := none
  route : Option PyVal := none
  destination : Option String := none
  source : Option String := none
deriving DecidableEq

/-- One document of the `flights` collection (and equally the `flight_update`
dictionary passed to `$set`): an `Option` field records whether the key is
present. -/
structure FlightDoc where
  flight_id : String
  latitude : ℚ
  longitude : ℚ
  altitude : ℚ
  speed : ℚ
  heading : ℚ
  status : PyVal
  last_updated : ℚ
  received_at : ℚ
  aircraft_type : Option PyVal := none
  airline : Option PyVal := none
  departure : Option PyVal := none
  arrival : Option PyVal := none
  route : Option PyVal := none
  destination : Option String := none
  source : Option String := none
  route_progress : Option ℝ := none
  ready_for_completion : Option Bool := none

/-- The route summary stored by the auto-completion sweep. -/
structure RouteSummary where
  source : String
  destination : String
  final_progress : ℝ

/-- The flight summary stored by the auto-completion sweep. -/
structure FlightSummary where
  aircraft_type : PyVal
  airline : PyVal
  departure_airport : String
  arrival_airport : String
  total_distance_km : ℝ

/-- One document of the `logs` collection (a completed-flight record). -/
structure LogDoc where
  flight_id : String
  path : List TrackDoc
  flight_details : Option FlightDoc
  completed_at : ℚ
  total_tracking_points : ℕ
  departure_time : Option ℚ
  arrival_time : Option ℚ
  total_duration_minutes : ℚ
  auto_completed : Option Bool := none
  route_summary : Option RouteSummary := none
  flight_summary : Option FlightSummary := none

/-- The three MongoDB collections used by the handlers, in insertion order. -/
structure Store where
  flights : List FlightDoc
  tracking : List TrackDoc
  logs : List LogDoc

def emptyStore : Store := ⟨[], [], []⟩

/-- `$set` semantics of `update_one`: every key present in the update
dictionary overwrites the stored document, keys absent from it are kept. -/
def setField {α : Type} (u old : Option α) : Option α :=
  match u with
  | some v => some v
  | none => old

/-- Apply a `$set` update dictionary to a matched `flights` document. -/
def applySet (old u : FlightDoc) : FlightDoc :=
  { u with
    aircraft_type := setField u.aircraft_type old.aircraft_type
    airline := setField u.airline old.airline
    departure := setField u.departure old.departure
    arrival := setField u.arrival old.arrival
    route := setField u.route old.route
    destination := setField u.destination old.destination
    source := setField u.source old.source
    route_progress := setField u.route_progress old.route_progress
    ready_for_completion := setField u.ready_for_completion old.ready_for_completion }

/-- `flights.update_one({"flight_id": id}, {"$set": u}, upsert=True)`:
replace the first matching document by the merged one, or append a fresh
document built from the update dictionary. -/
def updateOne : List FlightDoc → FlightDoc → List FlightDoc
  | [], u => [u]
  | f :: fs, u =>
    if f.flight_id = u.flight_id then applySet f u :: fs else f :: updateOne fs u

/-- `flights.find_one({"flight_id": id})`: first matching document. -/
def findFlight : List FlightDoc → String → Option FlightDoc
  | [], _ => none
  | f :: fs, id => if f.flight_id = id then some f else findFlight fs id

/-- `flights.delete_one({"flight_id": id})`: remove the first match. -/
def deleteOne : List FlightDoc → String → List FlightDoc
  | [], _ => []
  | f :: fs, id => if f.flight_id = id then fs else f :: deleteOne fs id

/-- `tracking.find({"flight_id": id})` in insertion order. -/
def trackFor (st : Store) (id : String) : List TrackDoc :=
  st.tracking.filter (fun t => t.flight_id == id)

/-- `tracking.delete_many({"flight_id": id})`. -/
def deleteTracking (l : List TrackDoc) (id : String) : List TrackDoc :=
  l.filter (fun t => t.flight_id != id)

/-- Stable insertion of a track point into a timestamp-sorted list (a point
is placed after all points with an earlier-or-equal timestamp). -/
def insertTs (t : TrackDoc) : List TrackDoc → List TrackDoc
  | [] => [t]
  | h :: rest =>
    if h.timestamp ≤ t.timestamp then h :: insertTs t rest else t :: h :: rest

/-- `.sort("timestamp", 1)`: stable sort by ascending timestamp. -/
def sortByTs : List TrackDoc → List TrackDoc
  | [] => []
  | h :: rest => insertTs h (sortByTs rest)

/-- The track point inserted into `tracking` by `update_flight`: the report
with coerced numerics, parsed timestamp, and server-assigned `received_at`.
The status is the one the report carried. -/
def mkTrack (now : ℚ) (n : NormReport) : TrackDoc :=
  ⟨n.flight_id, n.latitude, n.longitude, n.altitude, n.speed, n.heading,
   n.status, n.timestamp, now, n.aircraft_type, n.airline, n.departure,
   n.arrival, n.route, n.destination, n.source⟩

/-- The `flight_update` dictionary built by `update_flight` (lines 133–162):
required fields, present optional fields, and — when both `source` and
`destination` keys are present — the computed `route_progress`, with the
status forced to `"landed"` and `ready_for_completion` set when the progress
reaches 95. -/
noncomputable def mkUpdate (now : ℚ) (n : NormReport) : FlightDoc :=
  let base : FlightDoc :=
    { flight_id := n.flight_id, latitude := n.latitude, longitude := n.longitude,
      altitude := n.altitude, speed := n.speed, heading := n.heading,
      status := n.status, last_updated := n.timestamp, received_at := now,
      aircraft_type := n.aircraft_type, airline := n.airline,
      departure := n.departure, arrival := n.arrival, route := n.route,
      destination := n.destination, source := n.source }
  match n.source, n.destination with
  | some s, some d =>
    let p := calculate_route_progress (n.latitude : ℝ) (n.longitude : ℝ) (some s) (some d)
    if 95 ≤ p then
      { base with
        route_progress := some p
        status := pstr "landed"
        ready_for_completion := some true }
    else
      { base with route_progress := some p }
  | _, _ => base

/-- The `POST /api/flight/update` handler `update_flight`: validate, append
the track point, upsert the flight document. On any rejection the store is
untouched. -/
noncomputable def update_flight (conv parse : String → Option ℚ) (now : ℚ)
    (st : Store) (data : RawReport) : UpdRes × Store :=
  match validateReport conv parse data with
  | .error e => (e, st)
  | .ok n =>
    (.ok, { st with
      tracking := st.tracking ++ [mkTrack now n],
      flights := updateOne st.flights (mkUpdate now n) })

/-- Outcome of the `complete_flight` handler. -/
inductive CompRes where
  | success (total_points : ℕ) (duration_minutes : ℚ)
  | notFound
deriving DecidableEq

/-- Duration in minutes between first and last track point (0 with fewer
than two points), rounded to two decimals as in `complete_flight`. -/
def durationOf (path : List TrackDoc) : ℚ :=
  match path.head?, path.getLast? with
  | some first, some last =>
    if 1 < path.length then pyRound2Q ((last.timestamp - first.timestamp) / 60) else 0
  | _, _ => 0

/-- The `POST /api/flight/<id>/complete` handler `complete_flight`: 404 and
no writes when the flight has no track points, otherwise snapshot the track
and flight state into `logs` and delete both from the active collections. -/
def complete_flight (now : ℚ) (st : Store) (id : String) : CompRes × Store :=
  let path := sortByTs (trackFor st id)
  match path with
  | [] => (.notFound, st)
  | _ =>
    let log : LogDoc :=
      { flight_id := id, path := path, flight_details := findFlight st.flights id,
        completed_at := now, total_tracking_points := path.length,
        departure_time := (path.head?).map (·.timestamp),
        arrival_time := (path.getLast?).map (·.timestamp),
        total_duration_minutes := durationOf path }
    (.success path.length (durationOf path),
     { flights := deleteOne st.flights id,
       tracking := deleteTracking st.tracking id,
       logs := st.logs ++ [log] })

/-- Total distance flown, summing haversine distances over consecutive track
points (`calculate_flight_distance`), rounded to two decimals. -/
noncomputable def calculate_flight_distance (path : List TrackDoc) : ℝ :=
  if path.length < 2 then 0
  else pyRound2 ((path.zip path.tail).foldl
    (fun acc pc => acc + calculate_distance (pc.1.latitude : ℝ) (pc.1.longitude : ℝ)
      (pc.2.latitude : ℝ) (pc.2.longitude : ℝ)) 0)

/-- The selection filter of the auto-completion sweep:
`status == "landed"` or `ready_for_completion == True` or
`route_progress >= 95` (a missing field never matches). -/
noncomputable def landedB (f : FlightDoc) : Bool :=
  (f.status == pstr "landed") || (f.ready_for_completion == some true) ||
    (match f.route_progress with
     | some p => decide (95 ≤ p)
     | none => false)

/-- Unrounded duration in minutes used by the sweep (`total_duration`). -/
def sweepDuration (path : List TrackDoc) : ℚ :=
  match path.head?, path.getLast? with
  | some first, some last =>
    if 1 < path.length then (last.timestamp - first.timestamp) / 60 else 0
  | _, _ => 0

/-- The log entry written by the sweep for one selected flight. -/
noncomputable def mkSweepLog (now : ℚ) (st : Store) (f : FlightDoc)
    (path : List TrackDoc) : LogDoc :=
  { flight_id := f.flight_id, path := path,
    flight_details := findFlight st.flights f.flight_id,
    completed_at := now, total_tracking_points := path.length,
    departure_time := (path.head?).map (·.timestamp),
    arrival_time := (path.getLast?).map (·.timestamp),
    total_duration_minutes := pyRound2Q (sweepDuration path),
    auto_completed := some true,
    route_summary := some ⟨f.source.getD "Unknown", f.destination.getD "Unknown",
      (f.route_progress).getD 0⟩,
    flight_summary := some ⟨(f.aircraft_type).getD (pstr "Unknown"),
      (f.airline).getD (pstr "Unknown"), f.source.getD "Unknown",
      f.destination.getD "Unknown", calculate_flight_distance path⟩ }

/-- The loop body of `auto_complete_landed_flights`: walk the snapshot of
selected flights; a flight with track points is archived (log entry, both
deletions, counter increment), one without is skipped. -/
noncomputable def sweepLoop (now : ℚ) : List FlightDoc → Store → ℕ → ℕ × Store
  | [], st, acc => (acc, st)
  | f :: fs, st, acc =>
    let path := sortByTs (trackFor st f.flight_id)
    match path with
    | [] => sweepLoop now fs st acc
    | _ =>
      sweepLoop now fs
        { flights := deleteOne st.flights f.flight_id,
          tracking := deleteTracking st.tracking f.flight_id,
          logs := st.logs ++ [mkSweepLog now st f path] }
        (acc + 1)

/-- The `POST /api/flights/auto-complete` handler
`auto_complete_landed_flights`. Returns the number of flights archived. -/
noncomputable def auto_complete (now : ℚ) (st : Store) : ℕ × Store :=
  sweepLoop now (st.flights.filter landedB) st 0

/-- No two active flight documents share a flight identifier (the shape every
store reachable through the handlers has, since `flights` is only written by
keyed upserts and deletes). -/
def NodupIds (l : List FlightDoc) : Prop :=
  (l.map (fun f => f.flight_id)).Nodup

/-- The flight has at least one track point in the store. -/
def hasTrack (st : Store) (f : FlightDoc) : Bool :=
  !(trackFor st f.flight_id).isEmpty

/-! ## Concrete instances used to exercise the handlers

`convNone` is a string-to-float parser that accepts nothing (the concrete
reports below carry genuine numbers, so it is never consulted); `parse0` is
a timestamp parser mapping every string to instant 0. -/

def convNone : String → Option ℚ := fun _ => none

def parse0 : String → Option ℚ := fun _ => some 0

/-- A well-formed report for flight `F1` whose route is the degenerate
`JFK → JFK` (total route distance zero, so the computed progress is 100). -/
def rJJ : RawReport :=
  { flight_id := some "F1"
    latitude := some (pnum 10)
    longitude := some (pnum 20)
    altitude := some (pnum 0)
    speed := some (pnum 0)
    heading := some (pnum 0)
    status := some (pstr "en-route")
    timestamp := some (pstr "2024-01-01T00:00:00Z")
    destination := some "JFK"
    source := some "JFK" }

/-- The normalized form of `rJJ`. -/
def nJJ : NormReport :=
  ⟨"F1", 10, 20, 0, 0, 0, pstr "en-route", 0, none, none, none, none, none,
   some "JFK", some "JFK"⟩

/-- A well-formed report for flight `F1` carrying no route information. -/
def rF1 : RawReport :=
  { flight_id := some "F1"
    latitude := some (pnum 10)
    longitude := some (pnum 20)
    altitude := some (pnum 1000)
    speed := some (pnum 400)
    heading := some (pnum 90)
    status := some (pstr "cruise")
    timestamp := some (pstr "2024-01-01T00:00:00Z") }

/-- The normalized form of `rF1`. -/
def nF1 : NormReport :=
  ⟨"F1", 10, 20, 1000, 400, 90, pstr "cruise", 0, none, none, none, none, none,
   none, none⟩

/-- Check that one character list begins with another. -/
def startsWithL : List Char → List Char → Bool
  | [], _ => true
  | _ :: _, [] => false
  | a :: n, b :: h => a == b && startsWithL n h

/-- Check that `n` occurs as a contiguous run inside `h`. -/
def containsSub : List Char → List Char → Bool
  | n, [] => n.isEmpty
  | n, h :: rest => startsWithL n (h :: rest) || containsSub n rest

/-- Case-insensitive containment: the error message `hay` mentions the field
name `needle`. -/
def containsCI (needle hay : String) : Bool :=
  containsSub (needle.toList.map Char.toLower) (hay.toList.map Char.toLower)

/-- A report whose only defect is the missing `latitude` field. -/
def r9 : RawReport :=
  { flight_id := some "F1"
    longitude := some (pnum 20)
    altitude := some (pnum 1000)
    speed := some (pnum 400)
    heading := some (pnum 90)
    status := some (pstr "cruise")
    timestamp := some (pstr "2024-01-01T00:00:00Z") }

/-- A stored flight document whose completion flag is set. -/
def fdReady : FlightDoc :=
  { flight_id := "F1", latitude := 0, longitude := 0, altitude := 0, speed := 0,
    heading := 0, status := pstr "landed", last_updated := 0, received_at := 0,
    ready_for_completion := some true }

/-- A store holding `fdReady` as the only active flight. -/
def stReady : Store := ⟨[fdReady], [], []⟩

/-- A track point as produced by `rF1` at instant 0. -/
def tdF1 : TrackDoc :=
  ⟨"F1", 10, 20, 1000, 400, 90, pstr "cruise", 0, 0, none, none, none, none,
   none, none, none⟩

/-- A store holding `fdReady` with one track point for `F1`. -/
def stOne : Store := ⟨[fdReady], [tdF1], []⟩

/-- Some active flight document carries the identifier `id`. -/
def hasFlightId (l : List FlightDoc) (id : String) : Prop :=
  ∃ f ∈ l, f.flight_id = id

/-- Some completed-flight log entry carries the identifier `id`. -/
def hasLogId (l : List LogDoc) (id : String) : Prop :=
  ∃ g ∈ l, g.flight_id = id

/-- Ghost trace of the identifiers of the accepted reports: an update that
passes validation records its flight identifier. -/
def reportedAfter (conv parse : String → Option ℚ) (data : RawReport)
    (rep : List String) : List String :=
  match validateReport conv parse data with
  | .ok n => n.flight_id :: rep
  | .error _ => rep

/-- Stores reachable from the empty store through the three mutating
handlers, together with the ghost list of identifiers ever reported. -/
inductive Reach : Store → List String → Prop where
  | init : Reach emptyStore []
  | update (conv parse : String → Option ℚ) (now : ℚ) (data : RawReport)
      {st : Store} {rep : List String} (h : Reach st rep) :
      Reach ((update_flight conv parse now st data).2)
        (reportedAfter conv parse data rep)
  | complete (now : ℚ) (id : String) {st : Store} {rep : List String}
      (h : Reach st rep) : Reach ((complete_flight now st id).2) rep
  | sweep (now : ℚ) {st : Store} {rep : List String} (h : Reach st rep) :
      Reach ((auto_complete now st).2) rep

/-- The haversine distance from JFK to LAX (the `total_distance` of that
route). -/
noncomputable def Djl : ℝ := calculate_distance 40.6413 (-73.7781) 33.9416 (-118.4085)

/-- A latitude offset (in degrees) chosen so that a point that far due north
of LAX is at distance `Djl / 30000` from LAX. -/
noncomputable def delta0 : ℝ := Djl * 180 / (30000 * 6371 * Real.pi)

/-- A current position slightly north of LAX on its meridian. -/
noncomputable def clat0 : ℝ := 33.9416 + delta0

/-- The store after reporting `F1` once. -/
noncomputable def stA : Store := (update_flight convNone parse0 0 emptyStore rF1).2

/-- The store after additionally archiving `F1`. -/
noncomputable def stB : Store := (complete_flight 1 stA "F1").2

/-- The store after additionally re-reporting `F1` (post-archival report). -/
noncomputable def stC : Store := (update_flight convNone parse0 2 stB rF1).2

/-- The store after additionally archiving `F1` a second time. -/
noncomputable def stD : Store := (complete_flight 3 stC "F1").2

/-! ## Basic lemmas about the geographic functions -/

theorem radians_zero : radians 0 = 0 := by
  simp [radians]

theorem calculate_distance_self (lat lon : ℝ) : calculate_distance lat lon lat lon = 0 := by
  unfold calculate_distance atan2
  simp [radians_zero, Real.sqrt_one, Real.arctan_zero]

theorem progress_coincide (clat clon : ℝ) (s d : String) (sa da : Airport)
    (hs : AIRPORTS.lookup s = some sa) (hd : AIRPORTS.lookup d = some da)
    (h1 : sa.lat = da.lat) (h2 : sa.lon = da.lon) :
    calculate_route_progress clat clon (some s) (some d) = 100 := by
  simp only [calculate_route_progress, hs, hd]
  rw [h1, h2, calculate_distance_self]
  simp

/-! ## Store operation lemmas -/

theorem applySet_flight_id (old u : FlightDoc) :
    (applySet old u).flight_id = u.flight_id := rfl

theorem applySet_status (old u : FlightDoc) :
    (applySet old u).status = u.status := rfl

theorem findFlight_updateOne_self (l : List FlightDoc) (u : FlightDoc) :
    findFlight (updateOne l u) u.flight_id =
      some (match findFlight l u.flight_id with
            | some old => applySet old u
            | none => u) := by
  induction l with
  | nil => simp [updateOne, findFlight]
  | cons f fs ih =>
    by_cases h : f.flight_id = u.flight_id
    · simp [updateOne, findFlight, h, applySet_flight_id]
    · simp only [updateOne, if_neg h, findFlight, ih]

theorem findFlight_updateOne_other (l : List FlightDoc) (u : FlightDoc) (id : String)
    (h : id ≠ u.flight_id) :
    findFlight (updateOne l u) id = findFlight l id := by
  induction l with
  | nil => simp [updateOne, findFlight, (Ne.symm h : u.flight_id ≠ id)]
  | cons f fs ih =>
    by_cases hf : f.flight_id = u.flight_id
    · have hne : (applySet f u).flight_id ≠ id := by
        rw [applySet_flight_id]; exact fun he => h he.symm
      have hne' : f.flight_id ≠ id := by
        rw [hf]; exact fun he => h he.symm
      simp [updateOne, if_pos hf, findFlight, hne, hne']
    · simp only [updateOne, if_neg hf, findFlight, ih]

theorem mkUpdate_flight_id (now : ℚ) (n : NormReport) :
    (mkUpdate now n).flight_id = n.flight_id := by
  unfold mkUpdate
  cases hs : n.source <;> cases hd : n.destination
  · rfl
  · rfl
  · rfl
  · dsimp only
    split <;> rfl

theorem mkUpdate_landed (now : ℚ) (n : NormReport) (s d : String)
    (hs : n.source = some s) (hd : n.destination = some d)
    (hp : 95 ≤ calculate_route_progress (n.latitude : ℝ) (n.longitude : ℝ)
      n.source n.destination) :
    (mkUpdate now n).status = pstr "landed" ∧
      (mkUpdate now n).ready_for_completion = some true := by
  rw [hs, hd] at hp
  unfold mkUpdate
  rw [hs, hd]
  dsimp only
  rw [if_pos hp]
  exact ⟨rfl, rfl⟩

/-! ## C1: progress at least 95 forces the stored state to landed -/

/-- C1: for every validated position report carrying both a source and a
destination airport code whose computed route progress is at least 95, the
handler stores a flight document whose status is `"landed"` and whose
`ready_for_completion` field is `true`, regardless of the status the report
itself carried. -/
theorem C1_landed_override (conv parse : String → Option ℚ) (now : ℚ) (st : Store)
    (data : RawReport) (n : NormReport) (s d : String)
    (hok : validateReport conv parse data = .ok n)
    (hs : n.source = some s) (hd : n.destination = some d)
    (hp : 95 ≤ calculate_route_progress (n.latitude : ℝ) (n.longitude : ℝ)
      n.source n.destination) :
    ∃ fd, findFlight ((update_flight conv parse now st data).2).flights n.flight_id
        = some fd ∧
      fd.status = pstr "landed" ∧ fd.ready_for_completion = some true := by
  unfold update_flight
  rw [hok]
  dsimp only
  rw [← mkUpdate_flight_id now n, findFlight_updateOne_self]
  obtain ⟨h1, h2⟩ := mkUpdate_landed now n s d hs hd hp
  cases hf : findFlight st.flights (mkUpdate now n).flight_id with
  | none => exact ⟨_, rfl, h1, h2⟩
  | some old =>
    refine ⟨_, rfl, ?_, ?_⟩
    · rw [applySet_status]; exact h1
    · show setField (mkUpdate now n).ready_for_completion old.ready_for_completion
        = some true
      rw [h2]
      rfl

theorem progress_nJJ :
    calculate_route_progress (nJJ.latitude : ℝ) (nJJ.longitude : ℝ)
      nJJ.source nJJ.destination = 100 :=
  progress_coincide _ _ "JFK" "JFK" _ _ rfl rfl rfl rfl

/-- Witness for C1: the degenerate route `JFK → JFK` computes progress 100,
so the stored state is forced to landed even though the report said
`"en-route"`. -/
theorem C1_landed_override_witness :
    validateReport convNone parse0 rJJ = .ok nJJ ∧
    nJJ.source = some "JFK" ∧ nJJ.destination = some "JFK" ∧
    95 ≤ calculate_route_progress (nJJ.latitude : ℝ) (nJJ.longitude : ℝ)
      nJJ.source nJJ.destination ∧
    (∃ fd, findFlight ((update_flight convNone parse0 0 emptyStore rJJ).2).flights
        nJJ.flight_id = some fd ∧
      fd.status = pstr "landed" ∧ fd.ready_for_completion = some true) :=
  ⟨rfl, rfl, rfl, by rw [progress_nJJ]; norm_num,
   C1_landed_override convNone parse0 0 emptyStore rJJ nJJ "JFK" "JFK" rfl rfl rfl
     (by rw [progress_nJJ]; norm_num)⟩

theorem mkUpdate_ready (now : ℚ) (n : NormReport) :
    (mkUpdate now n).ready_for_completion = none ∨
      (mkUpdate now n).ready_for_completion = some true := by
  unfold mkUpdate
  cases hs : n.source <;> cases hd : n.destination
  · left; rfl
  · left; rfl
  · left; rfl
  · dsimp only
    split
    · right; rfl
    · left; rfl

/-! ## C8: the ready_for_completion flag is never cleared by a report -/

/-- C8: once a stored flight document has `ready_for_completion = true`, no
subsequent application of any report (for this or any other flight) clears
it: the document found for that flight id afterwards still carries the flag.
The update dictionary contains the `ready_for_completion` key only when it
sets it to `true`, so `$set` leaves an existing flag untouched. -/
theorem C8_ready_monotone (conv parse : String → Option ℚ) (now : ℚ) (st : Store)
    (data : RawReport) (id : String) (d0 : FlightDoc)
    (h0 : findFlight st.flights id = some d0)
    (hr : d0.ready_for_completion = some true) :
    ∀ d1, findFlight ((update_flight conv parse now st data).2).flights id = some d1 →
      d1.ready_for_completion = some true := by
  intro d1 h1
  unfold update_flight at h1
  cases hok : validateReport conv parse data with
  | error e =>
    rw [hok] at h1
    dsimp only at h1
    rw [h0] at h1
    cases h1
    exact hr
  | ok n =>
    rw [hok] at h1
    dsimp only at h1
    by_cases hid : id = (mkUpdate now n).flight_id
    · rw [hid] at h0 h1
      rw [findFlight_updateOne_self, h0] at h1
      cases h1
      show setField (mkUpdate now n).ready_for_completion d0.ready_for_completion
        = some true
      rcases mkUpdate_ready now n with hn | ht
      · rw [hn]; exact hr
      · rw [ht]; rfl
    · rw [findFlight_updateOne_other _ _ _ hid, h0] at h1
      cases h1
      exact hr

/-- Witness for C8: a stored flight `F1` with the flag set receives a fresh
ordinary report and keeps the flag. -/
theorem C8_ready_monotone_witness :
    findFlight stReady.flights "F1" = some fdReady ∧
    fdReady.ready_for_completion = some true ∧
    (∀ d1, findFlight ((update_flight convNone parse0 1 stReady rF1).2).flights "F1"
        = some d1 → d1.ready_for_completion = some true) :=
  ⟨rfl, rfl, C8_ready_monotone convNone parse0 1 stReady rF1 "F1" fdReady rfl rfl⟩

/-! ## Inversion of a successful validation -/

theorem validate_ok_inv (conv parse : String → Option ℚ) (data : RawReport)
    (n : NormReport) (h : validateReport conv parse data = .ok n) :
    data.flight_id = some n.flight_id ∧
    data.status = some n.status ∧
    data.source = n.source ∧
    data.destination = n.destination ∧
    (∃ v, data.latitude = some v ∧ pyFloat conv v = some n.latitude) ∧
    (∃ v, data.longitude = some v ∧ pyFloat conv v = some n.longitude) ∧
    (∃ v, data.altitude = some v ∧ pyFloat conv v = some n.altitude) ∧
    (∃ v, data.speed = some v ∧ pyFloat conv v = some n.speed) ∧
    (∃ v, data.heading = some v ∧ pyFloat conv v = some n.heading) ∧
    (∃ ts, data.timestamp = some (pstr ts) ∧ parse ts = some n.timestamp) := by
  unfold validateReport at h
  repeat' split at h
  any_goals cases h
  rename_i x1 x2 x3 x4 x5 x6 x7 x8 fid vlat vlon valt vspd vhdg vst hfid hlat
    hlon halt hspd hhdg hst q1 q2 q3 q4 q5 lat lon alt spd hdg plat plon palt
    pspd phdg c1 c2 c3 c4 c5 vts s hts xo t hparse
  exact ⟨hfid, hst, rfl, rfl, ⟨vlat, hlat, plat⟩, ⟨vlon, hlon, plon⟩,
    ⟨valt, halt, palt⟩, ⟨vspd, hspd, pspd⟩, ⟨vhdg, hhdg, phdg⟩, ⟨s, hts, hparse⟩⟩

/-! ## Membership preservation through the handlers -/

theorem findFlight_mem (l : List FlightDoc) (id : String) (d : FlightDoc)
    (h : findFlight l id = some d) : d ∈ l ∧ d.flight_id = id := by
  induction l with
  | nil => cases h
  | cons f fs ih =>
    unfold findFlight at h
    by_cases hf : f.flight_id = id
    · rw [if_pos hf] at h
      cases h
      exact ⟨List.mem_cons_self _ _, hf⟩
    · rw [if_neg hf] at h
      obtain ⟨hm, hi⟩ := ih h
      exact ⟨List.mem_cons_of_mem f hm, hi⟩

theorem hasFlightId_updateOne (l : List FlightDoc) (u : FlightDoc) (id : String)
    (h : hasFlightId l id) : hasFlightId (updateOne l u) id := by
  induction l with
  | nil => rcases h with ⟨g, hg, _⟩; cases hg
  | cons f fs ih =>
    rcases h with ⟨g, hg, hid⟩
    by_cases hf : f.flight_id = u.flight_id
    · rcases List.mem_cons.mp hg with rfl | hg'
      · refine ⟨applySet g u, ?_, ?_⟩
        · simp [updateOne, if_pos hf]
        · rw [applySet_flight_id, ← hf, hid]
      · exact ⟨g, by simp [updateOne, if_pos hf, hg'], hid⟩
    · rcases List.mem_cons.mp hg with rfl | hg'
      · exact ⟨g, by simp [updateOne, if_neg hf], hid⟩
      · obtain ⟨g', hg'', hid'⟩ := ih ⟨g, hg', hid⟩
        exact ⟨g', by simp [updateOne, if_neg hf, hg''], hid'⟩

theorem hasFlightId_updateOne_self (l : List FlightDoc) (u : FlightDoc) :
    hasFlightId (updateOne l u) u.flight_id := by
  obtain ⟨hm, hi⟩ := findFlight_mem _ _ _ (findFlight_updateOne_self l u)
  exact ⟨_, hm, hi⟩

theorem hasFlightId_deleteOne (l : List FlightDoc) (id id' : String)
    (h : hasFlightId l id') (hne : id' ≠ id) : hasFlightId (deleteOne l id) id' := by
  induction l with
  | nil => rcases h with ⟨g, hg, _⟩; cases hg
  | cons f fs ih =>
    rcases h with ⟨g, hg, hid⟩
    by_cases hf : f.flight_id = id
    · rcases List.mem_cons.mp hg with rfl | hg'
      · exact absurd (hid ▸ hf) hne
      · exact ⟨g, by simp [deleteOne, if_pos hf, hg'], hid⟩
    · rcases List.mem_cons.mp hg with rfl | hg'
      · exact ⟨g, by simp [deleteOne, if_neg hf], hid⟩
      · obtain ⟨g', hg'', hid'⟩ := ih ⟨g, hg', hid⟩
        exact ⟨g', by simp [deleteOne, if_neg hf, hg''], hid'⟩

theorem update_flight_preserves (conv parse : String → Option ℚ) (now : ℚ)
    (st : Store) (data : RawReport) (id : String)
    (h : hasFlightId st.flights id ∨ hasLogId st.logs id) :
    hasFlightId ((update_flight conv parse now st data).2).flights id ∨
      hasLogId ((update_flight conv parse now st data).2).logs id := by
  unfold update_flight
  cases hok : validateReport conv parse data with
  | error e => exact h
  | ok n =>
    dsimp only
    rcases h with hf | hl
    · exact Or.inl (hasFlightId_updateOne _ _ _ hf)
    · exact Or.inr hl

theorem complete_flight_preserves (now : ℚ) (st : Store) (id id' : String)
    (h : hasFlightId st.flights id' ∨ hasLogId st.logs id') :
    hasFlightId ((complete_flight now st id).2).flights id' ∨
      hasLogId ((complete_flight now st id).2).logs id' := by
  unfold complete_flight
  cases hpath : sortByTs (trackFor st id) with
  | nil => exact h
  | cons t ts =>
    dsimp only
    by_cases hid : id' = id
    · subst hid
      exact Or.inr ⟨_, List.mem_append_right _ (List.mem_singleton.mpr rfl), rfl⟩
    · rcases h with hf | hl
      · exact Or.inl (hasFlightId_deleteOne _ _ _ hf hid)
      · rcases hl with ⟨g, hg, hgid⟩
        exact Or.inr ⟨g, List.mem_append_left _ hg, hgid⟩

theorem sweepLoop_preserves (now : ℚ) (L : List FlightDoc) (st : Store) (acc : ℕ)
    (id : String) (h : hasFlightId st.flights id ∨ hasLogId st.logs id) :
    hasFlightId ((sweepLoop now L st acc).2).flights id ∨
      hasLogId ((sweepLoop now L st acc).2).logs id := by
  induction L generalizing st acc with
  | nil => exact h
  | cons f fs ih =>
    unfold sweepLoop
    cases hpath : sortByTs (trackFor st f.flight_id) with
    | nil => exact ih st acc h
    | cons t ts =>
      dsimp only
      apply ih
      by_cases hid : id = f.flight_id
      · subst hid
        exact Or.inr ⟨_, List.mem_append_right _ (List.mem_singleton.mpr rfl), rfl⟩
      · rcases h with hf | hl
        · exact Or.inl (hasFlightId_deleteOne _ _ _ hf hid)
        · rcases hl with ⟨g, hg, hgid⟩
          exact Or.inr ⟨g, List.mem_append_left _ hg, hgid⟩

/-! ## C2: every reported flight is in the active set or the archive -/

theorem reported_mem_active_or_logs (st : Store) (rep : List String)
    (h : Reach st rep) :
    ∀ id ∈ rep, hasFlightId st.flights id ∨ hasLogId st.logs id := by
  induction h with
  | init => intro id hid; cases hid
  | update conv parse now data h ih =>
    intro id hid
    unfold reportedAfter at hid
    cases hok : validateReport conv parse data with
    | error e =>
      rw [hok] at hid
      exact update_flight_preserves conv parse now _ data id (ih id hid)
    | ok n =>
      rw [hok] at hid
      rcases List.mem_cons.mp hid with rfl | hid'
      · unfold update_flight
        rw [hok]
        dsimp only
        refine Or.inl ?_
        rw [← mkUpdate_flight_id now n]
        exact hasFlightId_updateOne_self _ _
      · exact update_flight_preserves conv parse now _ data id (ih id hid')
  | complete now id' h ih =>
    intro id hid
    exact complete_flight_preserves now _ id' id (ih id hid)
  | sweep now h ih =>
    intro id hid
    exact sweepLoop_preserves now _ _ _ id (ih id hid)

/-- C2 (amended): in every reachable store, every flight identifier that was
ever reported through a validated update is present in the active flights
collection or in the completed-flight archive — never in neither — and
archival is what moves an identifier from the first to the second: applying
a report never writes the archive and never removes an identifier from the
active collection, while the two archival handlers are such that whenever
they remove an identifier from the active collection they append an archive
entry for it. (The exclusive version of the claim fails: re-reporting an
archived flight makes the identifier present in both collections, see the
counterexample.) -/
theorem C2_reported_invariant :
    (∀ st rep, Reach st rep → ∀ id ∈ rep,
      hasFlightId st.flights id ∨ hasLogId st.logs id) ∧
    (∀ conv parse now st data,
      ((update_flight conv parse now st data).2).logs = st.logs) ∧
    (∀ conv parse now st data id, hasFlightId st.flights id →
      hasFlightId ((update_flight conv parse now st data).2).flights id) ∧
    (∀ now st id id', hasFlightId st.flights id' →
      ¬ hasFlightId ((complete_flight now st id).2).flights id' →
      hasLogId ((complete_flight now st id).2).logs id') ∧
    (∀ now st id', hasFlightId st.flights id' →
      ¬ hasFlightId ((auto_complete now st).2).flights id' →
      hasLogId ((auto_complete now st).2).logs id') := by
  refine ⟨reported_mem_active_or_logs, ?_, ?_, ?_, ?_⟩
  · intro conv parse now st data
    unfold update_flight
    cases validateReport conv parse data <;> rfl
  · intro conv parse now st data id h
    unfold update_flight
    cases validateReport conv parse data with
    | error e => exact h
    | ok n => exact hasFlightId_updateOne _ _ _ h
  · intro now st id id' h hnot
    exact (complete_flight_preserves now st id id' (Or.inl h)).resolve_left hnot
  · intro now st id' h hnot
    exact (sweepLoop_preserves now _ st 0 id' (Or.inl h)).resolve_left hnot

/-- Witness for C2, exercising every hypothesis-bearing conjunct: the
reported `F1` is in the active set after its accepted report; a further
report keeps it active and leaves the archive untouched; archiving it (both
through the single-flight handler on `stA` and through the sweep on `stOne`)
removes it from the active set and puts it in the archive. -/
theorem C2_reported_invariant_witness :
    Reach stA (reportedAfter convNone parse0 rF1 []) ∧
    (∀ id ∈ reportedAfter convNone parse0 rF1 [],
      hasFlightId stA.flights id ∨ hasLogId stA.logs id) ∧
    ((update_flight convNone parse0 2 stA rF1).2).logs = stA.logs ∧
    hasFlightId stA.flights "F1" ∧
    hasFlightId ((update_flight convNone parse0 2 stA rF1).2).flights "F1" ∧
    ¬ hasFlightId ((complete_flight 1 stA "F1").2).flights "F1" ∧
    hasLogId ((complete_flight 1 stA "F1").2).logs "F1" ∧
    hasFlightId stOne.flights "F1" ∧
    ¬ hasFlightId ((auto_complete 7 stOne).2).flights "F1" ∧
    hasLogId ((auto_complete 7 stOne).2).logs "F1" := by
  have hreach : Reach stA (reportedAfter convNone parse0 rF1 []) :=
    Reach.update convNone parse0 0 rF1 Reach.init
  have hA : hasFlightId stA.flights "F1" := by
    unfold hasFlightId
    decide
  have hnotB : ¬ hasFlightId ((complete_flight 1 stA "F1").2).flights "F1" := by
    unfold hasFlightId
    decide
  have hOne : hasFlightId stOne.flights "F1" := by
    unfold hasFlightId
    decide
  have hnotS : ¬ hasFlightId ((auto_complete 7 stOne).2).flights "F1" := by
    unfold hasFlightId
    decide
  exact ⟨hreach, C2_reported_invariant.1 stA _ hreach,
    C2_reported_invariant.2.1 convNone parse0 2 stA rF1, hA,
    C2_reported_invariant.2.2.1 convNone parse0 2 stA rF1 "F1" hA,
    hnotB, C2_reported_invariant.2.2.2.1 1 stA "F1" "F1" hA hnotB,
    hOne, hnotS, C2_reported_invariant.2.2.2.2 7 stOne "F1" hOne hnotS⟩

/-- Counterexample for C2: report `F1`, archive it, then report it again —
the resulting reachable store holds `F1` in the active flights collection
and in the archive at the same time, refuting the exclusive ("never both")
reading of the invariant. -/
theorem C2_counterexample :
    (∃ rep, Reach stC rep) ∧
    (stC.flights.filter (fun f => f.flight_id == "F1")).length = 1 ∧
    (stC.logs.filter (fun g => g.flight_id == "F1")).length = 1 := by
  refine ⟨⟨_, Reach.update convNone parse0 2 rF1
    (Reach.complete 1 "F1" (Reach.update convNone parse0 0 rF1 Reach.init))⟩, ?_, ?_⟩
  · decide
  · decide

/-! ## C6: effect of a successful archive -/

theorem insertTs_length (t : TrackDoc) (l : List TrackDoc) :
    (insertTs t l).length = l.length + 1 := by
  induction l with
  | nil => rfl
  | cons h rest ih =>
    unfold insertTs
    split
    · simp [ih]
    · simp

theorem sortByTs_length (l : List TrackDoc) : (sortByTs l).length = l.length := by
  induction l with
  | nil => rfl
  | cons h rest ih => simp [sortByTs, insertTs_length, ih]

theorem deleteOne_ne (l : List FlightDoc) (id : String) (hnd : NodupIds l) :
    ∀ f ∈ deleteOne l id, f.flight_id ≠ id := by
  induction l with
  | nil => intro f hf; cases hf
  | cons g fs ih =>
    rw [NodupIds, List.map_cons, List.nodup_cons] at hnd
    obtain ⟨hnotin, hnd'⟩ := hnd
    intro f hf
    unfold deleteOne at hf
    by_cases hg : g.flight_id = id
    · rw [if_pos hg] at hf
      intro hfi
      exact hnotin (List.mem_map.mpr ⟨f, hf, by rw [hfi, hg]⟩)
    · rw [if_neg hg] at hf
      rcases List.mem_cons.mp hf with rfl | hf'
      · exact hg
      · exact ih hnd' f hf'

/-- C6 (amended): archiving a flight that has at least one track point
succeeds, removes its identifier from the active flights collection, adds
exactly one new archive entry for it (so it appears exactly once if it had
never been archived before — a re-reported and re-archived flight
accumulates several entries, see the counterexample), and empties its track
points. -/
theorem C6_archive_effect (now : ℚ) (st : Store) (id : String)
    (hnd : NodupIds st.flights) (hne : trackFor st id ≠ []) :
    (∃ k dur, (complete_flight now st id).1 = CompRes.success k dur) ∧
    (∀ f ∈ ((complete_flight now st id).2).flights, f.flight_id ≠ id) ∧
    (((complete_flight now st id).2).logs.filter (fun g => g.flight_id == id)).length
      = (st.logs.filter (fun g => g.flight_id == id)).length + 1 ∧
    trackFor ((complete_flight now st id).2) id = [] := by
  have hlen : sortByTs (trackFor st id) ≠ [] := by
    intro hec
    apply hne
    have hl := sortByTs_length (trackFor st id)
    rw [hec] at hl
    exact (List.length_eq_zero.mp hl.symm)
  rcases hpath : sortByTs (trackFor st id) with _ | ⟨t, ts⟩
  · exact absurd hpath hlen
  · have h2 : complete_flight now st id =
        (CompRes.success (t :: ts).length (durationOf (t :: ts)),
         { flights := deleteOne st.flights id,
           tracking := deleteTracking st.tracking id,
           logs := st.logs ++ [⟨id, t :: ts, findFlight st.flights id, now,
             (t :: ts).length, ((t :: ts).head?).map (fun x => x.timestamp),
             ((t :: ts).getLast?).map (fun x => x.timestamp),
             durationOf (t :: ts), none, none, none⟩] }) := by
      unfold complete_flight
      rw [hpath]
    rw [h2]
    refine ⟨⟨_, _, rfl⟩, deleteOne_ne st.flights id hnd, ?_, ?_⟩
    · simp [List.filter_append]
    · show (deleteTracking st.tracking id).filter (fun x => x.flight_id == id) = []
      simp only [deleteTracking, List.filter_filter]
      have : ∀ x : TrackDoc, (x.flight_id == id && (x.flight_id != id)) = false := by
        intro x
        cases hx : (x.flight_id == id) <;> simp [bne, hx]
      simp [this]

/-- Witness for C6 on a one-flight, one-track-point store. -/
theorem C6_archive_effect_witness :
    NodupIds stOne.flights ∧ trackFor stOne "F1" ≠ [] ∧
    (∃ k dur, (complete_flight 5 stOne "F1").1 = CompRes.success k dur) :=
  ⟨by unfold NodupIds; decide, by decide,
   (C6_archive_effect 5 stOne "F1" (by unfold NodupIds; decide) (by decide)).1⟩

/-- Counterexample for C6: report `F1`, archive it, report it again, archive
it again — the second archive succeeds from a state where `F1` has one track
point, yet afterwards the archive holds two entries for `F1`, not exactly
one. -/
theorem C6_counterexample :
    (stC.tracking.filter (fun t => t.flight_id == "F1")).length = 1 ∧
    (complete_flight 3 stC "F1").1 = CompRes.success 1 0 ∧
    (stD.logs.filter (fun g => g.flight_id == "F1")).length = 2 :=
  ⟨by decide, by decide, by decide⟩

/-! ## C10: the history point carries the submitted status and values -/

/-- C10: the track point appended to the history by a successful update is
exactly the validated report — it carries the report's submitted status and
(coerced) field values. The progress-95 override can change only the flight
document, never the appended history point, and the logs are untouched. -/
theorem C10_track_submitted (conv parse : String → Option ℚ) (now : ℚ) (st : Store)
    (data : RawReport) (n : NormReport)
    (hok : validateReport conv parse data = .ok n) :
    (update_flight conv parse now st data).2.tracking = st.tracking ++ [mkTrack now n] ∧
    (mkTrack now n).status = n.status ∧
    data.status = some n.status ∧
    (mkTrack now n).latitude = n.latitude ∧
    (mkTrack now n).longitude = n.longitude ∧
    (mkTrack now n).altitude = n.altitude ∧
    (mkTrack now n).speed = n.speed ∧
    (mkTrack now n).heading = n.heading ∧
    (mkTrack now n).timestamp = n.timestamp ∧
    (mkTrack now n).source = n.source ∧
    (mkTrack now n).destination = n.destination ∧
    (update_flight conv parse now st data).2.logs = st.logs := by
  have hinv := validate_ok_inv conv parse data n hok
  unfold update_flight
  rw [hok]
  exact ⟨rfl, rfl, hinv.2.1, rfl, rfl, rfl, rfl, rfl, rfl, rfl, rfl, rfl⟩

/-- Witness for C10: the `JFK → JFK` report is stored in the history with its
submitted status `"en-route"` even though the flight document is forced to
`"landed"`. -/
theorem C10_track_submitted_witness :
    validateReport convNone parse0 rJJ = .ok nJJ ∧
    (update_flight convNone parse0 0 emptyStore rJJ).2.tracking
      = emptyStore.tracking ++ [mkTrack 0 nJJ] ∧
    (mkTrack 0 nJJ).status = nJJ.status ∧
    rJJ.status = some nJJ.status :=
  ⟨rfl, (C10_track_submitted convNone parse0 0 emptyStore rJJ nJJ rfl).1,
    (C10_track_submitted convNone parse0 0 emptyStore rJJ nJJ rfl).2.1,
    (C10_track_submitted convNone parse0 0 emptyStore rJJ nJJ rfl).2.2.1⟩

theorem validate_err_msgs (conv parse : String → Option ℚ) (data : RawReport)
    (e : UpdRes) (h : validateReport conv parse data = .error e) :
    e = .crash ∨ e = .badRequest missingMsg ∨ e = .badRequest typeMsg ∨
    e = .badRequest latMsg ∨ e = .badRequest lonMsg ∨ e = .badRequest altMsg ∨
    e = .badRequest spdMsg ∨ e = .badRequest hdgMsg ∨ e = .badRequest tsMsg := by
  unfold validateReport at h
  repeat' split at h
  any_goals cases h
  all_goals simp

/-! ## C9: validation rejections -/

/-- C9 (amended): every rejection issued by the validator is a 400-class
error carrying one of the eight fixed messages; the five range-violation
messages name the offending field, while the missing-field and
numeric-type rejections carry generic messages. -/
theorem C9_rejections (conv parse : String → Option ℚ) (now : ℚ) (st : Store)
    (data : RawReport) (msg : String)
    (h : (update_flight conv parse now st data).1 = UpdRes.badRequest msg) :
    (msg = missingMsg ∨ msg = typeMsg ∨ msg = latMsg ∨ msg = lonMsg ∨
      msg = altMsg ∨ msg = spdMsg ∨ msg = hdgMsg ∨ msg = tsMsg) ∧
    (msg = latMsg → containsCI "latitude" msg = true) ∧
    (msg = lonMsg → containsCI "longitude" msg = true) ∧
    (msg = altMsg → containsCI "altitude" msg = true) ∧
    (msg = spdMsg → containsCI "speed" msg = true) ∧
    (msg = hdgMsg → containsCI "heading" msg = true) := by
  refine ⟨?_, ?_, ?_, ?_, ?_, ?_⟩
  · unfold update_flight at h
    cases hok : validateReport conv parse data with
    | ok n => rw [hok] at h; cases h
    | error e =>
      rw [hok] at h
      dsimp only at h
      rcases validate_err_msgs conv parse data e hok with
        hc | hm | hm | hm | hm | hm | hm | hm | hm
      · rw [hc] at h; cases h
      all_goals rw [hm] at h
      all_goals cases h
      all_goals simp
  all_goals intro he
  all_goals rw [he]
  all_goals decide

/-- Counterexample for C9: a report missing only its `latitude` field is
rejected with the generic message, which does not name the offending field. -/
theorem C9_counterexample :
    (update_flight convNone parse0 0 emptyStore r9).1 = UpdRes.badRequest missingMsg ∧
    r9.latitude = none ∧
    containsCI "latitude" missingMsg = false :=
  ⟨rfl, rfl, by decide⟩

/-- Witness for C9 at a concrete out-of-range rejection. -/
theorem C9_rejections_witness :
    (update_flight convNone parse0 0 emptyStore
        { rF1 with latitude := some (pnum 95) }).1 = UpdRes.badRequest latMsg ∧
    containsCI "latitude" latMsg = true :=
  ⟨rfl, (C9_rejections convNone parse0 0 emptyStore
    { rF1 with latitude := some (pnum 95) } latMsg rfl).2.1 rfl⟩

/-! ## C7: waypoint interpolation -/

/-- C7: for every pair of known airport codes `A` and `B`,
`waypoints(A, B, 20)` returns exactly 21 coordinate/progress pairs, linearly
interpolated in latitude/longitude space by index, the `i`-th carrying
progress `i/20 * 100`; the first point equals `A`'s coordinate exactly and
the last equals `B`'s coordinate exactly. -/
theorem C7_waypoints (A B : String) (ca cb : Airport)
    (hA : AIRPORTS.lookup A = some ca) (hB : AIRPORTS.lookup B = some cb) :
    (get_route_waypoints (some A) (some B) 20).length = 21 ∧
    (∀ i : ℕ, i < 21 →
      (get_route_waypoints (some A) (some B) 20)[i]? =
        some ⟨ca.lat + (cb.lat - ca.lat) * ((i : ℝ) / 20),
              ca.lon + (cb.lon - ca.lon) * ((i : ℝ) / 20),
              (i : ℝ) / 20 * 100⟩) ∧
    (get_route_waypoints (some A) (some B) 20)[0]? = some ⟨ca.lat, ca.lon, 0⟩ ∧
    (get_route_waypoints (some A) (some B) 20)[20]? = some ⟨cb.lat, cb.lon, 100⟩ := by
  have hw : get_route_waypoints (some A) (some B) 20 =
      (List.range 21).map (fun i : ℕ =>
        (⟨ca.lat + (cb.lat - ca.lat) * ((i : ℝ) / 20),
          ca.lon + (cb.lon - ca.lon) * ((i : ℝ) / 20),
          (i : ℝ) / 20 * 100⟩ : Waypoint)) := by
    simp only [get_route_waypoints, hA, hB]
    refine List.map_congr_left ?_
    intro i _
    norm_num [Waypoint.mk.injEq]
  refine ⟨?_, ?_, ?_, ?_⟩
  · rw [hw]; simp
  · intro i hi
    rw [hw, List.getElem?_map, List.getElem?_range hi]
    rfl
  · rw [hw, List.getElem?_map, List.getElem?_range (by norm_num : (0:ℕ) < 21)]
    norm_num [Waypoint.mk.injEq]
  · rw [hw, List.getElem?_map, List.getElem?_range (by norm_num : (20:ℕ) < 21)]
    simp only [Option.map_some', Option.some.injEq, Waypoint.mk.injEq]
    norm_num

/-- Witness for C7 at the concrete codes `JFK` and `LAX`. -/
theorem C7_waypoints_witness :
    AIRPORTS.lookup "JFK" = some ⟨40.6413, -73.7781, "John F. Kennedy International"⟩ ∧
    AIRPORTS.lookup "LAX" = some ⟨33.9416, -118.4085, "Los Angeles International"⟩ ∧
    (get_route_waypoints (some "JFK") (some "LAX") 20).length = 21 :=
  ⟨rfl, rfl, (C7_waypoints "JFK" "LAX" _ _ rfl rfl).1⟩

/-! ## C5: archiving a flight with no track points -/

/-- C5: for every `flight_id` with no track points in the history,
`Archive(flight_id)` fails with NotFound and leaves the flights, tracking
and logs collections completely unchanged. -/
theorem C5_archive_notfound (now : ℚ) (st : Store) (id : String)
    (h : trackFor st id = []) :
    complete_flight now st id = (CompRes.notFound, st) := by
  unfold complete_flight
  rw [h]
  rfl

/-- Witness for C5 on the empty store. -/
theorem C5_archive_notfound_witness :
    trackFor emptyStore "UA100" = [] ∧
    complete_flight 0 emptyStore "UA100" = (CompRes.notFound, emptyStore) :=
  ⟨rfl, C5_archive_notfound 0 emptyStore "UA100" rfl⟩

/-! ## C4: the auto-completion sweep -/

theorem sortByTs_eq_nil_iff (l : List TrackDoc) : sortByTs l = [] ↔ l = [] := by
  constructor
  · intro h
    have hl := sortByTs_length l
    rw [h] at hl
    exact List.length_eq_zero.mp hl.symm
  · intro h
    rw [h]
    rfl

theorem deleteOne_sublist (l : List FlightDoc) (id : String) :
    List.Sublist (deleteOne l id) l := by
  induction l with
  | nil => exact List.nil_sublist _
  | cons g fs ih =>
    unfold deleteOne
    by_cases hg : g.flight_id = id
    · rw [if_pos hg]
      exact List.sublist_cons_self g fs
    · rw [if_neg hg]
      exact ih.cons₂ g

theorem NodupIds_deleteOne (l : List FlightDoc) (id : String) (hnd : NodupIds l) :
    NodupIds (deleteOne l id) :=
  List.Nodup.sublist (List.Sublist.map (fun f => f.flight_id)
    (deleteOne_sublist l id)) hnd

theorem deleteOne_eq_filter (l : List FlightDoc) (id : String) (hnd : NodupIds l) :
    deleteOne l id = l.filter (fun f => f.flight_id != id) := by
  induction l with
  | nil => rfl
  | cons g fs ih =>
    rw [NodupIds, List.map_cons, List.nodup_cons] at hnd
    obtain ⟨hnotin, hnd'⟩ := hnd
    unfold deleteOne
    by_cases hg : g.flight_id = id
    · rw [if_pos hg, List.filter_cons]
      have hgb : (g.flight_id != id) = false := by simp [hg]
      rw [hgb]
      simp only [Bool.false_eq_true, if_false]
      refine (List.filter_eq_self.mpr ?_).symm
      intro f hf
      simp only [bne_iff_ne, ne_eq]
      intro he
      exact hnotin (List.mem_map.mpr ⟨f, hf, he.trans hg.symm⟩)
    · rw [if_neg hg, List.filter_cons]
      have hgb : (g.flight_id != id) = true := by simp [hg]
      rw [hgb]
      simp only [if_true]
      rw [ih hnd']

theorem filter_deleteTracking (tr : List TrackDoc) (id id' : String) (h : id ≠ id') :
    (deleteTracking tr id').filter (fun t => t.flight_id == id) =
      tr.filter (fun t => t.flight_id == id) := by
  unfold deleteTracking
  rw [List.filter_filter]
  apply List.filter_congr
  intro t _
  by_cases ht : t.flight_id = id
  · simp [ht, bne, beq_eq_false_iff_ne, h, Ne.symm h]
  · simp [beq_eq_false_iff_ne, ht]

/-- Full characterisation of one sweep pass over the snapshot `L`: the count
of archived flights, the surviving active flights, the surviving track
points, and the identifiers appended to the archive. -/
theorem sweepLoop_spec (now : ℚ) (L : List FlightDoc) (st : Store) (acc : ℕ)
    (hL : (L.map (fun f => f.flight_id)).Nodup) (hnd : NodupIds st.flights) :
    (sweepLoop now L st acc).1 = acc + (L.filter (hasTrack st)).length ∧
    ((sweepLoop now L st acc).2).flights = st.flights.filter
      (fun g => !(((L.filter (hasTrack st)).map (fun f => f.flight_id)).contains
        g.flight_id)) ∧
    ((sweepLoop now L st acc).2).tracking = st.tracking.filter
      (fun t => !(((L.filter (hasTrack st)).map (fun f => f.flight_id)).contains
        t.flight_id)) ∧
    ((sweepLoop now L st acc).2).logs.map (fun g => g.flight_id) =
      st.logs.map (fun g => g.flight_id) ++
        (L.filter (hasTrack st)).map (fun f => f.flight_id) := by
  induction L generalizing st acc with
  | nil =>
    simp [sweepLoop]
  | cons f fs ih =>
    rw [List.map_cons, List.nodup_cons] at hL
    obtain ⟨hf_not, hfs_nd⟩ := hL
    have hne_fs : ∀ g ∈ fs, g.flight_id ≠ f.flight_id := by
      intro g hg he
      exact hf_not (he ▸ List.mem_map.mpr ⟨g, hg, rfl⟩)
    unfold sweepLoop
    cases hpath : sortByTs (trackFor st f.flight_id) with
    | nil =>
      have h0 : trackFor st f.flight_id = [] := (sortByTs_eq_nil_iff _).mp hpath
      have hht : hasTrack st f = false := by
        simp [hasTrack, h0]
      rw [List.filter_cons, hht]
      simp only [Bool.false_eq_true, if_false]
      exact ih st acc hfs_nd hnd
    | cons t ts =>
      have h0 : trackFor st f.flight_id ≠ [] := by
        intro hc
        rw [(sortByTs_eq_nil_iff _).mpr hc] at hpath
        cases hpath
      have hht : hasTrack st f = true := by
        unfold hasTrack
        cases hc : trackFor st f.flight_id with
        | nil => exact absurd hc h0
        | cons a as => rfl
      have hfc : (f :: fs).filter (hasTrack st) = f :: fs.filter (hasTrack st) := by
        rw [List.filter_cons, hht]
        simp
      have hnd' : NodupIds (deleteOne st.flights f.flight_id) :=
        NodupIds_deleteOne _ _ hnd
      have ihs := ih
        ⟨deleteOne st.flights f.flight_id,
         deleteTracking st.tracking f.flight_id,
         st.logs ++ [mkSweepLog now st f (t :: ts)]⟩ (acc + 1) hfs_nd hnd'
      dsimp only at ihs
      have hfilt : fs.filter (hasTrack
          (⟨deleteOne st.flights f.flight_id,
            deleteTracking st.tracking f.flight_id,
            st.logs ++ [mkSweepLog now st f (t :: ts)]⟩ : Store))
          = fs.filter (hasTrack st) := by
        apply List.filter_congr
        intro g hg
        unfold hasTrack trackFor
        dsimp only
        rw [filter_deleteTracking st.tracking g.flight_id f.flight_id (hne_fs g hg)]
      rw [hfilt] at ihs
      dsimp only
      simp only [hfc]
      obtain ⟨ih1, ih2, ih3, ih4⟩ := ihs
      refine ⟨?_, ?_, ?_, ?_⟩
      · rw [ih1]
        simp only [List.length_cons]
        omega
      · rw [ih2, deleteOne_eq_filter _ _ hnd, List.filter_filter]
        apply List.filter_congr
        intro g _
        simp only [List.map_cons, List.contains_cons, Bool.not_or, bne]
        cases h1 : (g.flight_id == f.flight_id) <;>
          cases h2 : ((fs.filter (hasTrack st)).map
            (fun f => f.flight_id)).contains g.flight_id <;> simp [h1, h2]
      · rw [ih3]
        show (deleteTracking st.tracking f.flight_id).filter _ = _
        unfold deleteTracking
        rw [List.filter_filter]
        apply List.filter_congr
        intro x _
        simp only [List.map_cons, List.contains_cons, Bool.not_or, bne]
        cases h1 : (x.flight_id == f.flight_id) <;>
          cases h2 : ((fs.filter (hasTrack st)).map
            (fun f => f.flight_id)).contains x.flight_id <;> simp [h1, h2]
      · rw [ih4]
        simp only [List.map_append, List.map_cons, List.map_nil]
        rw [List.append_assoc]
        rfl

/-- C4: the sweep archives exactly the flights whose document has status
`"landed"`, or `ready_for_completion` true, or a stored `route_progress` of
at least 95, and which have at least one track point: those leave the active
collection, their track points are removed, and one archive entry per
archived flight is appended; a selected flight without track points is left
in place; the returned value counts exactly the archived flights. -/
theorem C4_sweep (now : ℚ) (st : Store) (hnd : NodupIds st.flights) :
    (∀ f : FlightDoc, landedB f = true ↔
      (f.status = pstr "landed" ∨ f.ready_for_completion = some true ∨
        ∃ p, f.route_progress = some p ∧ 95 ≤ p)) ∧
    (auto_complete now st).1 =
      ((st.flights.filter landedB).filter (hasTrack st)).length ∧
    ((auto_complete now st).2).flights = st.flights.filter
      (fun g => !((((st.flights.filter landedB).filter (hasTrack st)).map
        (fun f => f.flight_id)).contains g.flight_id)) ∧
    ((auto_complete now st).2).tracking = st.tracking.filter
      (fun t => !((((st.flights.filter landedB).filter (hasTrack st)).map
        (fun f => f.flight_id)).contains t.flight_id)) ∧
    ((auto_complete now st).2).logs.map (fun g => g.flight_id) =
      st.logs.map (fun g => g.flight_id) ++
        ((st.flights.filter landedB).filter (hasTrack st)).map
          (fun f => f.flight_id) := by
  have hsub : (List.map (fun f => f.flight_id) (st.flights.filter landedB)).Nodup :=
    List.Nodup.sublist (List.Sublist.map _ (List.filter_sublist _)) hnd
  have hs := sweepLoop_spec now (st.flights.filter landedB) st 0 hsub hnd
  unfold auto_complete
  refine ⟨?_, by rw [hs.1]; omega, hs.2.1, hs.2.2.1, hs.2.2.2⟩
  intro f
  unfold landedB
  cases hrp : f.route_progress with
  | none => simp [hrp]
  | some p => simp [hrp, or_assoc]

/-- Witness for C4 on a one-flight store: the landed flight `F1` with one
track point is archived and counted. -/
theorem C4_sweep_witness :
    NodupIds stOne.flights ∧
    (auto_complete 7 stOne).1 =
      ((stOne.flights.filter landedB).filter (hasTrack stOne)).length :=
  ⟨by unfold NodupIds; decide,
   (C4_sweep 7 stOne (by unfold NodupIds; decide)).2.1⟩

/-! ## C3: route progress — geometric groundwork -/

theorem atan2_le_half_pi (y x : ℝ) (hy : 0 ≤ y) (hx : 0 ≤ x) :
    0 ≤ atan2 y x ∧ atan2 y x ≤ Real.pi / 2 := by
  unfold atan2
  by_cases h1 : 0 < x
  · rw [if_pos h1]
    constructor
    · rw [← Real.arctan_zero]
      exact Real.arctan_strictMono.monotone (div_nonneg hy h1.le)
    · exact (Real.arctan_lt_pi_div_two _).le
  · have hx0 : x = 0 := le_antisymm (not_lt.mp h1) hx
    subst hx0
    rw [if_neg h1, if_neg (by simp), if_neg (by simp)]
    by_cases hy1 : 0 < y
    · rw [if_pos hy1]
      exact ⟨by positivity, le_refl _⟩
    · rw [if_neg hy1, if_neg (not_lt.mpr hy)]
      exact ⟨le_refl _, by positivity⟩

theorem atan2_pos_of (y x : ℝ) (hy : 0 < y) (hx : 0 ≤ x) : 0 < atan2 y x := by
  unfold atan2
  by_cases h1 : 0 < x
  · rw [if_pos h1]
    rw [← Real.arctan_zero]
    exact Real.arctan_strictMono (div_pos hy h1)
  · have hx0 : x = 0 := le_antisymm (not_lt.mp h1) hx
    subst hx0
    rw [if_neg h1, if_neg (by simp), if_neg (by simp), if_pos hy]
    positivity

theorem dist_as_atan2 (lat1 lon1 lat2 lon2 : ℝ) :
    ∃ y x : ℝ, 0 ≤ y ∧ 0 ≤ x ∧
      calculate_distance lat1 lon1 lat2 lon2 = 6371 * (2 * atan2 y x) :=
  ⟨_, _, Real.sqrt_nonneg _, Real.sqrt_nonneg _, rfl⟩

theorem calculate_distance_le (lat1 lon1 lat2 lon2 : ℝ) :
    calculate_distance lat1 lon1 lat2 lon2 ≤ 6371 * Real.pi := by
  obtain ⟨y, x, hy, hx, he⟩ := dist_as_atan2 lat1 lon1 lat2 lon2
  rw [he]
  have h := (atan2_le_half_pi y x hy hx).2
  linarith

theorem calculate_distance_nonneg (lat1 lon1 lat2 lon2 : ℝ) :
    0 ≤ calculate_distance lat1 lon1 lat2 lon2 := by
  obtain ⟨y, x, hy, hx, he⟩ := dist_as_atan2 lat1 lon1 lat2 lon2
  rw [he]
  have h := (atan2_le_half_pi y x hy hx).1
  linarith

/-- Along a meridian (equal longitudes) the haversine distance has the closed
form `R · Δφ` in radians, for offsets up to 180 degrees. -/
theorem calculate_distance_meridian (phi L d : ℝ) (h0 : 0 < d) (h1 : d < 180) :
    calculate_distance (phi + d) L phi L = 6371 * (d * Real.pi / 180) := by
  have hpi := Real.pi_pos
  have ht0 : 0 < d * Real.pi / 360 := by positivity
  have ht2 : d * Real.pi / 360 < Real.pi / 2 := by
    rw [div_lt_div_iff₀ (by norm_num : (0:ℝ) < 360) (by norm_num : (0:ℝ) < 2)]
    nlinarith
  have htpi : d * Real.pi / 360 < Real.pi := lt_trans ht2 (by linarith)
  have hs : 0 < Real.sin (d * Real.pi / 360) :=
    Real.sin_pos_of_pos_of_lt_pi ht0 htpi
  have hc : 0 < Real.cos (d * Real.pi / 360) :=
    Real.cos_pos_of_mem_Ioo ⟨by linarith, ht2⟩
  simp only [calculate_distance, radians]
  have e1 : (phi - (phi + d)) * Real.pi / 180 / 2 = -(d * Real.pi / 360) := by ring
  have e2 : (L - L) * Real.pi / 180 / 2 = 0 := by ring
  rw [e1, e2, Real.sin_neg, Real.sin_zero]
  have e3 : -Real.sin (d * Real.pi / 360) * -Real.sin (d * Real.pi / 360) +
      Real.cos ((phi + d) * Real.pi / 180) * Real.cos (phi * Real.pi / 180) * 0 * 0
      = Real.sin (d * Real.pi / 360) ^ 2 := by ring
  rw [e3]
  rw [Real.sqrt_sq hs.le]
  have e4 : 1 - Real.sin (d * Real.pi / 360) ^ 2 = Real.cos (d * Real.pi / 360) ^ 2 := by
    have := Real.sin_sq_add_cos_sq (d * Real.pi / 360)
    linarith
  rw [e4, Real.sqrt_sq hc.le]
  unfold atan2
  rw [if_pos hc]
  rw [← Real.tan_eq_sin_div_cos, Real.arctan_tan (by linarith) ht2]
  ring

theorem calculate_distance_pos (lat1 lon1 lat2 lon2 : ℝ)
    (h : 0 < Real.sin (radians (lat2 - lat1) / 2) * Real.sin (radians (lat2 - lat1) / 2) +
      Real.cos (radians lat1) * Real.cos (radians lat2) *
      Real.sin (radians (lon2 - lon1) / 2) * Real.sin (radians (lon2 - lon1) / 2)) :
    0 < calculate_distance lat1 lon1 lat2 lon2 := by
  simp only [calculate_distance]
  exact mul_pos (by norm_num)
    (mul_pos (by norm_num) (atan2_pos_of _ _ (Real.sqrt_pos.mpr h) (Real.sqrt_nonneg _)))

theorem distance_JFK_LAX_pos :
    0 < calculate_distance 40.6413 (-73.7781) 33.9416 (-118.4085) := by
  have hpi := Real.pi_pos
  have ht0 : (0:ℝ) < 6.6997 * Real.pi / 360 := by positivity
  have htpi : 6.6997 * Real.pi / 360 < Real.pi := by nlinarith
  have hsin : 0 < Real.sin (6.6997 * Real.pi / 360) :=
    Real.sin_pos_of_pos_of_lt_pi ht0 htpi
  have hc1 : 0 < Real.cos (radians 40.6413) := by
    apply Real.cos_pos_of_mem_Ioo
    unfold radians
    constructor
    · nlinarith
    · nlinarith
  have hc2 : 0 < Real.cos (radians 33.9416) := by
    apply Real.cos_pos_of_mem_Ioo
    unfold radians
    constructor
    · nlinarith
    · nlinarith
  apply calculate_distance_pos
  have e0 : (33.9416:ℝ) - 40.6413 = -6.6997 := by norm_num
  rw [e0]
  unfold radians
  have e1 : (-6.6997:ℝ) * Real.pi / 180 / 2 = -(6.6997 * Real.pi / 360) := by ring
  rw [e1, Real.sin_neg]
  unfold radians at hc1 hc2
  nlinarith [mul_pos hsin hsin,
    mul_self_nonneg (Real.sin ((-118.4085 - -73.7781) * Real.pi / 180 / 2)),
    mul_nonneg hc1.le hc2.le]

theorem pyRound2_ne_of (x : ℝ) (h : ∀ m : ℤ, (m : ℝ) ≠ x * 100) : pyRound2 x ≠ x := by
  intro he
  apply h (roundHalfEven (x * 100))
  unfold pyRound2 at he
  rw [div_eq_iff (by norm_num : (100:ℝ) ≠ 0)] at he
  exact he

theorem pyRound2_bounds (x : ℝ) (h0 : 0 ≤ x) (h1 : x ≤ 100) :
    0 ≤ pyRound2 x ∧ pyRound2 x ≤ 100 := by
  have hf0 : (0:ℤ) ≤ ⌊x * 100⌋ := Int.floor_nonneg.mpr (by nlinarith)
  have hfle : (⌊x * 100⌋ : ℝ) ≤ x * 100 := Int.floor_le _
  have hx100 : x * 100 ≤ 10000 := by nlinarith
  unfold pyRound2 roundHalfEven
  split_ifs with ha hb hc
  · constructor
    · have : (0:ℝ) ≤ (⌊x * 100⌋ : ℝ) := by exact_mod_cast hf0
      positivity
    · rw [div_le_iff₀ (by norm_num : (0:ℝ) < 100)]
      linarith
  · constructor
    · have h2 : (0:ℝ) ≤ (⌊x * 100⌋ : ℝ) := by exact_mod_cast hf0
      have h3 : (0:ℝ) ≤ ((⌊x * 100⌋ + 1 : ℤ) : ℝ) := by push_cast; linarith
      positivity
    · rw [div_le_iff₀ (by norm_num : (0:ℝ) < 100)]
      have hn1 : ((⌊x * 100⌋ + 1 : ℤ) : ℝ) < 10001 := by push_cast; linarith
      have hn2 : (⌊x * 100⌋ + 1 : ℤ) ≤ 10000 := by
        have h5 : ((⌊x * 100⌋ + 1 : ℤ) : ℝ) < ((10001 : ℤ) : ℝ) := by
          push_cast
          push_cast at hn1
          linarith
        have h6 := Int.cast_lt.mp h5
        omega
      have : ((⌊x * 100⌋ + 1 : ℤ) : ℝ) ≤ 10000 := by exact_mod_cast hn2
      push_cast at this ⊢
      linarith
  · constructor
    · have : (0:ℝ) ≤ (⌊x * 100⌋ : ℝ) := by exact_mod_cast hf0
      positivity
    · rw [div_le_iff₀ (by norm_num : (0:ℝ) < 100)]
      linarith
  · have heq : x * 100 - (⌊x * 100⌋ : ℝ) = 1 / 2 :=
      le_antisymm (not_lt.mp hb) (not_lt.mp ha)
    constructor
    · have h2 : (0:ℝ) ≤ (⌊x * 100⌋ : ℝ) := by exact_mod_cast hf0
      have h3 : (0:ℝ) ≤ ((⌊x * 100⌋ + 1 : ℤ) : ℝ) := by push_cast; linarith
      positivity
    · rw [div_le_iff₀ (by norm_num : (0:ℝ) < 100)]
      have hn1 : ((⌊x * 100⌋ + 1 : ℤ) : ℝ) < 10001 := by push_cast; linarith
      have hn2 : (⌊x * 100⌋ + 1 : ℤ) ≤ 10000 := by
        have h5 : ((⌊x * 100⌋ + 1 : ℤ) : ℝ) < ((10001 : ℤ) : ℝ) := by
          push_cast
          push_cast at hn1
          linarith
        have h6 := Int.cast_lt.mp h5
        omega
      have : ((⌊x * 100⌋ + 1 : ℤ) : ℝ) ≤ 10000 := by exact_mod_cast hn2
      push_cast at this ⊢
      linarith

/-- Counterexample for C3: at a current position slightly north of LAX on
the `JFK → LAX` route, the progress percentage `100·(D − d)/D` equals
`100 − 1/300`, which is not a multiple of 0.01, so the value the function
returns (rounded to two decimals) differs from the clamped formula the claim
states. -/
theorem C3_counterexample :
    calculate_route_progress clat0 (-118.4085) (some "JFK") (some "LAX") ≠
      max 0 (min 100 ((1 - calculate_distance clat0 (-118.4085) 33.9416 (-118.4085) /
        calculate_distance 40.6413 (-73.7781) 33.9416 (-118.4085)) * 100)) := by
  have hD : 0 < Djl := distance_JFK_LAX_pos
  have hDle : Djl ≤ 6371 * Real.pi := calculate_distance_le _ _ _ _
  have hpi := Real.pi_pos
  have hd0 : 0 < delta0 := by unfold delta0; positivity
  have hd1 : delta0 < 180 := by
    unfold delta0
    rw [div_lt_iff₀ (by positivity)]
    nlinarith
  have hmer : calculate_distance clat0 (-118.4085) 33.9416 (-118.4085)
      = 6371 * (delta0 * Real.pi / 180) :=
    calculate_distance_meridian 33.9416 (-118.4085) delta0 hd0 hd1
  have hcur : calculate_distance clat0 (-118.4085) 33.9416 (-118.4085) = Djl / 30000 := by
    rw [hmer]
    unfold delta0
    field_simp
    ring
  have l1 : AIRPORTS.lookup "JFK"
      = some ⟨40.6413, -73.7781, "John F. Kennedy International"⟩ := rfl
  have l2 : AIRPORTS.lookup "LAX"
      = some ⟨33.9416, -118.4085, "Los Angeles International"⟩ := rfl
  have hDrfl : calculate_distance 40.6413 (-73.7781) 33.9416 (-118.4085) = Djl := rfl
  simp only [calculate_route_progress, l1, l2]
  rw [hDrfl, hcur, if_neg hD.ne']
  have hv1 : (Djl - Djl / 30000) / Djl * 100 = 100 - 1/300 := by
    field_simp
    ring
  have hv2 : (1 - Djl / 30000 / Djl) * 100 = 100 - 1/300 := by
    field_simp
    ring
  rw [hv1, hv2]
  rw [min_eq_right (by norm_num : (100:ℝ) - 1/300 ≤ 100),
    max_eq_right (by norm_num : (0:ℝ) ≤ 100 - 1/300)]
  apply pyRound2_ne_of
  intro m hm
  have h3 : (3 * m : ℝ) = 29999 := by linarith
  have h4 : (3 * m : ℤ) = 29999 := by exact_mod_cast h3
  omega

theorem clamp_mem (v : ℝ) :
    0 ≤ max 0 (min 100 v) ∧ max 0 (min 100 v) ≤ 100 :=
  ⟨le_max_left _ _, max_le (by norm_num) (min_le_left _ _)⟩

/-- C3 (amended): the route progress is always in [0, 100]; it is 0 whenever
either airport code is absent or unknown; it is 100 when the source and
destination coordinates coincide (total route distance zero); and otherwise
it equals `100·(1 − d(current, destination)/d(source, destination))` clamped
to [0, 100] and then rounded half-to-even to two decimal places. -/
theorem C3_route_progress (clat clon : ℝ) (src dst : Option String) :
    (0 ≤ calculate_route_progress clat clon src dst ∧
      calculate_route_progress clat clon src dst ≤ 100) ∧
    ((src = none ∨ dst = none ∨
      (∃ s, src = some s ∧ AIRPORTS.lookup s = none) ∨
      (∃ d, dst = some d ∧ AIRPORTS.lookup d = none)) →
      calculate_route_progress clat clon src dst = 0) ∧
    (∀ s d sa da, src = some s → dst = some d → AIRPORTS.lookup s = some sa →
      AIRPORTS.lookup d = some da → sa.lat = da.lat → sa.lon = da.lon →
      calculate_route_progress clat clon src dst = 100) ∧
    (∀ s d sa da, src = some s → dst = some d → AIRPORTS.lookup s = some sa →
      AIRPORTS.lookup d = some da →
      calculate_distance sa.lat sa.lon da.lat da.lon ≠ 0 →
      calculate_route_progress clat clon src dst =
        pyRound2 (max 0 (min 100
          ((1 - calculate_distance clat clon da.lat da.lon /
            calculate_distance sa.lat sa.lon da.lat da.lon) * 100)))) := by
  refine ⟨?_, ?_, ?_, ?_⟩
  · rcases src with _ | s
    · exact ⟨le_refl _, show (0:ℝ) ≤ 100 by norm_num⟩
    · rcases dst with _ | d
      · exact ⟨le_refl _, show (0:ℝ) ≤ 100 by norm_num⟩
      · cases hls : AIRPORTS.lookup s with
        | none =>
          simp only [calculate_route_progress, hls]
          exact ⟨le_refl _, by norm_num⟩
        | some sa =>
          cases hld : AIRPORTS.lookup d with
          | none =>
            simp only [calculate_route_progress, hls, hld]
            exact ⟨le_refl _, by norm_num⟩
          | some da =>
            simp only [calculate_route_progress, hls, hld]
            split
            · exact ⟨by norm_num, le_refl _⟩
            · exact pyRound2_bounds _ (clamp_mem _).1 (clamp_mem _).2
  · intro hcase
    rcases hcase with rfl | hdn | ⟨s, rfl, hnone⟩ | ⟨d, hdd, hnone⟩
    · rfl
    · rcases src with _ | s
      · rfl
      · rw [hdn]
        rfl
    · rcases dst with _ | d
      · rfl
      · cases hld : AIRPORTS.lookup d with
        | none => simp only [calculate_route_progress, hnone, hld]
        | some da => simp only [calculate_route_progress, hnone, hld]
    · rcases src with _ | s
      · rfl
      · rw [hdd]
        cases hls : AIRPORTS.lookup s with
        | none => simp only [calculate_route_progress, hls, hnone]
        | some sa => simp only [calculate_route_progress, hls, hnone]
  · intro s d sa da hs hd hls hld h1 h2
    rw [hs, hd]
    exact progress_coincide clat clon s d sa da hls hld h1 h2
  · intro s d sa da hs hd hls hld hne
    rw [hs, hd]
    simp only [calculate_route_progress, hls, hld]
    rw [if_neg hne]
    have hveq : (calculate_distance sa.lat sa.lon da.lat da.lon -
        calculate_distance clat clon da.lat da.lon) /
        calculate_distance sa.lat sa.lon da.lat da.lon * 100 =
        (1 - calculate_distance clat clon da.lat da.lon /
          calculate_distance sa.lat sa.lon da.lat da.lon) * 100 := by
      field_simp
    rw [hveq]

/-- Witness for C3: an unknown code yields 0, the degenerate `JFK → JFK`
route yields 100, and the `JFK → LAX` route from the origin follows the
clamped-and-rounded formula. -/
theorem C3_route_progress_witness :
    AIRPORTS.lookup "ZZZ" = none ∧
    calculate_route_progress 0 0 (some "ZZZ") (some "JFK") = 0 ∧
    AIRPORTS.lookup "JFK" = some ⟨40.6413, -73.7781, "John F. Kennedy International"⟩ ∧
    calculate_route_progress 0 0 (some "JFK") (some "JFK") = 100 ∧
    calculate_distance 40.6413 (-73.7781) 33.9416 (-118.4085) ≠ 0 ∧
    calculate_route_progress 0 0 (some "JFK") (some "LAX") =
      pyRound2 (max 0 (min 100 ((1 - calculate_distance 0 0 33.9416 (-118.4085) /
        calculate_distance 40.6413 (-73.7781) 33.9416 (-118.4085)) * 100))) :=
  by
  refine ⟨rfl, ?_, rfl, ?_, distance_JFK_LAX_pos.ne', ?_⟩
  · exact (C3_route_progress 0 0 (some "ZZZ") (some "JFK")).2.1
      (Or.inr (Or.inr (Or.inl ⟨"ZZZ", rfl, rfl⟩)))
  · exact (C3_route_progress 0 0 (some "JFK") (some "JFK")).2.2.1 "JFK" "JFK" _ _
      rfl rfl rfl rfl rfl rfl
  · exact (C3_route_progress 0 0 (some "JFK") (some "LAX")).2.2.2 "JFK" "LAX"
      ⟨40.6413, -73.7781, "John F. Kennedy International"⟩
      ⟨33.9416, -118.4085, "Los Angeles International"⟩
      rfl rfl rfl rfl distance_JFK_LAX_pos.ne'

end FlightSystem
